import Mathlib

/-!
Shallow embedding of `AggregateBlockingSourceOperator`
(src/be/src/exec/pipeline/aggregate/aggregate_blocking_source_operator.cpp)
from the StarRocks blocking hash-aggregation stage, together with the parts
of the shared `Aggregator` state that the operator reads and mutates.

The operator's own methods (`has_output`, `is_finished`, `set_finished`,
`pull_chunk`) are translated directly from the C++ source.  The Aggregator's
member functions (`is_sink_complete`, `is_ht_eos`, `is_none_group_by_exprs`,
`is_pre_cache`, `convert_to_chunk_no_groupby`, `convert_hash_map_to_chunk`,
`update_num_rows_returned`, `set_finished`, `defer_notify_sink`) live outside
the provided sources, so they are modelled from the specification, as the
doc comments below record.
-/

namespace StarrocksPipeline

/-- A row of a columnar batch, modelled as its list of column values. -/
abbrev Row := List Int

/-- A Chunk is an ordered batch of rows; `num_rows` is its length. -/
abbrev Chunk := List Row

/-- The outcomes the operator surface can report. -/
inductive Status where
  | cancelled
  | internalError (msg : String)
deriving DecidableEq, Repr

/-- Modelled from the spec: the Aggregator state shared by the sink and
source operators.  `groups` holds the finalized per-group output rows in
hash-table iteration order, `single_row` the NoGroupBy accumulator's
finalized row; `none_group_by_exprs` is true exactly in NoGroupBy mode. -/
structure Aggregator where
  sink_complete : Bool
  ht_eos : Bool
  drain_cursor : Nat
  rows_returned : Int
  is_pre_cache : Bool
  none_group_by_exprs : Bool
  groups : List Row
  single_row : Row
deriving DecidableEq, Repr

/-- The slice of RuntimeState the operator consults. -/
structure RuntimeState where
  is_cancelled : Bool
  chunk_size : Nat
deriving DecidableEq, Repr

/-- Modelled from the spec: `Aggregator::update_num_rows_returned` adjusts
the running returned-row counter by the given delta. -/
def update_num_rows_returned (agg : Aggregator) (delta : Int) : Aggregator :=
  { agg with rows_returned := agg.rows_returned + delta }

/-- Modelled from the spec: `Aggregator::convert_to_chunk_no_groupby`
materializes the single accumulator's finalized values (one row) into the
output chunk and marks the Aggregator drained immediately. -/
def convert_to_chunk_no_groupby (agg : Aggregator) : Aggregator × Chunk :=
  ({ agg with ht_eos := true }, [agg.single_row])

/-- Modelled from the spec: `Aggregator::convert_hash_map_to_chunk` advances
`drain_cursor` over the hash table, materializing up to `batch_size` groups
into the output chunk, and sets `ht_eos` once the cursor reaches the end. -/
def convert_hash_map_to_chunk (agg : Aggregator) (batch_size : Nat) :
    Aggregator × Chunk :=
  let out := (agg.groups.drop agg.drain_cursor).take batch_size
  let cursor := min (agg.drain_cursor + batch_size) agg.groups.length
  ({ agg with drain_cursor := cursor,
              ht_eos := decide (agg.groups.length ≤ cursor) }, out)

/-- Modelled from the spec: `eval_runtime_bloom_filters` removes from the
chunk, in place, the rows rejected by the runtime bloom filter. -/
def eval_runtime_bloom_filters (bloom : Row → Bool) (chunk : Chunk) : Chunk :=
  chunk.filter bloom

/-- Modelled from the spec: `eval_conjuncts_and_in_filters` removes from the
chunk, in place, the rows that fail any conjunct predicate. -/
def eval_conjuncts_and_in_filters (conjuncts : List (Row → Bool))
    (chunk : Chunk) : Chunk :=
  chunk.filter (fun r => conjuncts.all (fun p => p r))

/-- `AggregateBlockingSourceOperator::has_output`:
`_aggregator->is_sink_complete() && !_aggregator->is_ht_eos()`. -/
def has_output (agg : Aggregator) : Bool :=
  agg.sink_complete && !agg.ht_eos

/-- `AggregateBlockingSourceOperator::is_finished`:
`_aggregator->is_sink_complete() && _aggregator->is_ht_eos()`. -/
def is_finished (agg : Aggregator) : Bool :=
  agg.sink_complete && agg.ht_eos

/-- State-passing form of the const method `has_output`: it returns its
observation and passes the Aggregator state through untouched, which is what
the `const` qualifier in the C++ signature guarantees. -/
def has_output_call (agg : Aggregator) : Bool × Aggregator :=
  (has_output agg, agg)

/-- State-passing form of the const method `is_finished`. -/
def is_finished_call (agg : Aggregator) : Bool × Aggregator :=
  (is_finished agg, agg)

/-- Modelled from the spec: `Aggregator::set_finished` force-completes the
Aggregator from any state to Drained, discarding undrained state. -/
def aggregator_set_finished (agg : Aggregator) : Aggregator :=
  { agg with sink_complete := true, ht_eos := true }

/-- Observable events of the source operator's `set_finished`: the terminal
mutation of the shared Aggregator, and the notification of the sink-side
observers fired by the deferred token at scope exit. -/
inductive Event where
  | aggStateMutated
  | observersNotified
deriving DecidableEq, Repr

/-- `AggregateBlockingSourceOperator::set_finished`: constructs the deferred
notification token (`defer_notify_sink`), then applies the forcing mutation
`_aggregator->set_finished()`; the token fires the notification at scope
exit, i.e. after the mutation.  The event list records execution order. -/
def sourceOp_set_finished (agg : Aggregator) : Aggregator × List Event :=
  let deferredNotify := [Event.observersNotified]
  let agg2 := aggregator_set_finished agg
  (agg2, [Event.aggStateMutated] ++ deferredNotify)

/-- Lines 59-71 of `pull_chunk`: record the pre-filter row count, apply the
bloom filter and conjunct evaluation unless the Aggregator is in pre-cache
mode, and charge the filtered-away row delta to the returned-row counter. -/
def pull_chunk_after_convert (bloom : Row → Bool)
    (conjuncts : List (Row → Bool)) (agg : Aggregator) (chunk : Chunk) :
    Except Status Chunk × Aggregator :=
  let old_size : Int := chunk.length
  let chunk2 :=
    if !agg.is_pre_cache then
      eval_conjuncts_and_in_filters conjuncts
        (eval_runtime_bloom_filters bloom chunk)
    else chunk
  (Except.ok chunk2,
   update_num_rows_returned agg (-(old_size - (chunk2.length : Int))))

/-- Lines 53-57 of `pull_chunk`: dispatch on the group-by mode. -/
def drain_step (agg : Aggregator) (chunk_size : Nat) : Aggregator × Chunk :=
  if agg.none_group_by_exprs then convert_to_chunk_no_groupby agg
  else convert_hash_map_to_chunk agg chunk_size

/-- `AggregateBlockingSourceOperator::pull_chunk`: fail fast when cancelled,
allocate a fresh chunk, drain one step in the mode-appropriate way, then
filter and account (`pull_chunk_after_convert`).  The bloom filter and the
conjunct list are the external collaborators the operator consults. -/
def pull_chunk (bloom : Row → Bool) (conjuncts : List (Row → Bool))
    (state : RuntimeState) (agg : Aggregator) :
    Except Status Chunk × Aggregator :=
  if state.is_cancelled then (Except.error Status.cancelled, agg)
  else
    let p := drain_step agg state.chunk_size
    pull_chunk_after_convert bloom conjuncts p.1 p.2

/-- A bloom filter that accepts every row. -/
def passAllBloom : Row → Bool := fun _ => true

/-- A conjunct list whose single predicate rejects every row. -/
def rejectConj : List (Row → Bool) := [fun _ => false]

/-- A sample GroupBy-mode Aggregator mid-drain: sink complete, two groups
left, cursor at the start. -/
def sampleAgg : Aggregator :=
  { sink_complete := true, ht_eos := false, drain_cursor := 0,
    rows_returned := 0, is_pre_cache := false, none_group_by_exprs := false,
    groups := [[1], [2]], single_row := [] }

/-- A sample NoGroupBy-mode Aggregator. -/
def sampleAggNoGB : Aggregator :=
  { sampleAgg with none_group_by_exprs := true, groups := [],
                   single_row := [7] }

/-- A sample pre-cache Aggregator. -/
def sampleAggPre : Aggregator :=
  { sampleAgg with is_pre_cache := true }

/-- A runtime state that is not cancelled, with batch size 1. -/
def sampleState : RuntimeState := { is_cancelled := false, chunk_size := 1 }

/-- A runtime state in which cancellation has been requested. -/
def cancelledState : RuntimeState := { is_cancelled := true, chunk_size := 1 }

/-- Draining preserves the immutable `is_pre_cache` flag. -/
theorem drain_step_pre_cache (agg : Aggregator) (n : Nat) :
    (drain_step agg n).1.is_pre_cache = agg.is_pre_cache := by
  unfold drain_step convert_to_chunk_no_groupby convert_hash_map_to_chunk
  split <;> rfl

/-- Draining does not touch the returned-row counter. -/
theorem drain_step_rows_returned (agg : Aggregator) (n : Nat) :
    (drain_step agg n).1.rows_returned = agg.rows_returned := by
  unfold drain_step convert_to_chunk_no_groupby convert_hash_map_to_chunk
  split <;> rfl

/-- C2: `has_output()` returns true exactly when `sink_complete` is true and
`ht_eos` is false; in particular it is false whenever `sink_complete` is
false. -/
theorem has_output_eq (agg : Aggregator) :
    has_output agg = (agg.sink_complete && !agg.ht_eos) := rfl

/-- C3: `is_finished()` returns true exactly when both `sink_complete` and
`ht_eos` are true. -/
theorem is_finished_eq (agg : Aggregator) :
    is_finished agg = (agg.sink_complete && agg.ht_eos) := rfl

/-- C10: `has_output()` and `is_finished()` are never both true: both require
`sink_complete` but demand opposite values of `ht_eos`. -/
theorem has_output_is_finished_exclusive (agg : Aggregator) :
    (has_output agg && is_finished agg) = false := by
  obtain ⟨s, e, _, _, _, _, _, _⟩ := agg
  cases s <;> cases e <;> rfl

/-- C8: `has_output()` and `is_finished()` are pure observations: each call
leaves the Aggregator state unchanged, and repeated calls with no intervening
mutation return the same boolean. -/
theorem observers_pure (agg : Aggregator) :
    (has_output_call agg).2 = agg ∧
    (is_finished_call agg).2 = agg ∧
    (has_output_call (has_output_call agg).2).1 = (has_output_call agg).1 ∧
    (is_finished_call (is_finished_call agg).2).1 = (is_finished_call agg).1 :=
  ⟨rfl, rfl, rfl, rfl⟩

/-- C5: when cancellation has been requested, `pull_chunk` returns the
Cancelled error and the whole Aggregator state — `drain_cursor`, `ht_eos`,
`sink_complete` and the returned-row counter included — is left unchanged;
in particular cancellation does not finalize the Aggregator. -/
theorem pull_chunk_cancelled (bloom : Row → Bool)
    (conjuncts : List (Row → Bool)) (st : RuntimeState) (agg : Aggregator)
    (h : st.is_cancelled = true) :
    pull_chunk bloom conjuncts st agg = (Except.error Status.cancelled, agg) := by
  unfold pull_chunk
  rw [h]
  rfl

/-- Witness for C5 at a concrete cancelled state and Aggregator. -/
theorem pull_chunk_cancelled_witness :
    cancelledState.is_cancelled = true ∧
    pull_chunk passAllBloom rejectConj cancelledState sampleAgg =
      (Except.error Status.cancelled, sampleAgg) :=
  ⟨rfl, pull_chunk_cancelled passAllBloom rejectConj cancelledState sampleAgg rfl⟩

/-- C7: in the source operator's `set_finished`, the forcing mutation of the
shared Aggregator lands, and in the event order the mutation strictly
precedes the observer notification fired by the deferred token. -/
theorem set_finished_mutate_before_notify (agg : Aggregator) :
    (sourceOp_set_finished agg).1 = aggregator_set_finished agg ∧
    (sourceOp_set_finished agg).2 =
      [Event.aggStateMutated, Event.observersNotified] ∧
    List.indexOf Event.aggStateMutated (sourceOp_set_finished agg).2 <
      List.indexOf Event.observersNotified (sourceOp_set_finished agg).2 :=
  ⟨rfl, rfl, show (0 : Nat) < 1 from Nat.zero_lt_one⟩

/-- C1: when `is_pre_cache` is true, a non-cancelled `pull_chunk` applies no
bloom-filter or conjunct evaluation: the emitted chunk is exactly the chunk
produced by the conversion step, and the whole result is the same whatever
bloom filter and conjunct list are present. -/
theorem pull_chunk_pre_cache_no_filter (bloom bloom2 : Row → Bool)
    (conj conj2 : List (Row → Bool)) (st : RuntimeState) (agg : Aggregator)
    (hp : agg.is_pre_cache = true) (hc : st.is_cancelled = false) :
    (pull_chunk bloom conj st agg).1 =
      Except.ok (drain_step agg st.chunk_size).2 ∧
    pull_chunk bloom conj st agg = pull_chunk bloom2 conj2 st agg := by
  have hp1 : (drain_step agg st.chunk_size).1.is_pre_cache = true := by
    rw [drain_step_pre_cache]; exact hp
  unfold pull_chunk pull_chunk_after_convert
  rw [hc]
  simp [hp1]

/-- Witness for C1 at a concrete pre-cache Aggregator and two different
filter configurations. -/
theorem pull_chunk_pre_cache_no_filter_witness :
    (sampleAggPre.is_pre_cache = true ∧ sampleState.is_cancelled = false) ∧
    ((pull_chunk passAllBloom rejectConj sampleState sampleAggPre).1 =
        Except.ok (drain_step sampleAggPre sampleState.chunk_size).2 ∧
      pull_chunk passAllBloom rejectConj sampleState sampleAggPre =
        pull_chunk (fun _ => false) [] sampleState sampleAggPre) :=
  ⟨⟨rfl, rfl⟩,
   pull_chunk_pre_cache_no_filter passAllBloom (fun _ => false) rejectConj []
     sampleState sampleAggPre rfl rfl⟩

/-- C4: every successful `pull_chunk` adjusts the returned-row counter by
exactly the negative of the number of rows filtering removed, i.e. the
post-conversion row count minus the emitted row count, in exact integer
arithmetic. -/
theorem pull_chunk_counter_delta (bloom : Row → Bool)
    (conjuncts : List (Row → Bool)) (st : RuntimeState) (agg : Aggregator)
    (hc : st.is_cancelled = false) (out : Chunk)
    (hok : (pull_chunk bloom conjuncts st agg).1 = Except.ok out) :
    (pull_chunk bloom conjuncts st agg).2.rows_returned =
      agg.rows_returned -
        (((drain_step agg st.chunk_size).2.length : Int) -
          (out.length : Int)) := by
  have hfalse : ¬(false = true) := Bool.false_ne_true
  unfold pull_chunk pull_chunk_after_convert at hok ⊢
  rw [hc, if_neg hfalse] at hok
  rw [hc, if_neg hfalse]
  dsimp only at hok ⊢
  simp only [Except.ok.injEq] at hok
  simp only [update_num_rows_returned, drain_step_rows_returned, hok]
  omega

/-- Witness for C4 at a concrete successful call whose filtering removed the
single drained row. -/
theorem pull_chunk_counter_delta_witness :
    (sampleState.is_cancelled = false ∧
      (pull_chunk passAllBloom rejectConj sampleState sampleAgg).1 =
        Except.ok ([] : Chunk)) ∧
    (pull_chunk passAllBloom rejectConj sampleState sampleAgg).2.rows_returned =
      sampleAgg.rows_returned -
        (((drain_step sampleAgg sampleState.chunk_size).2.length : Int) -
          (([] : Chunk).length : Int)) :=
  ⟨⟨rfl, rfl⟩,
   pull_chunk_counter_delta passAllBloom rejectConj sampleState sampleAgg rfl
     [] rfl⟩

/-- C6: a non-cancelled `pull_chunk` drains via `convert_to_chunk_no_groupby`
exactly in NoGroupBy mode and via `convert_hash_map_to_chunk` with the
runtime batch size exactly in GroupBy mode; the rest of the call
(`pull_chunk_after_convert`) is the same in both cases, so exactly one of
the two conversions happens per call. -/
theorem pull_chunk_dispatch (bloom : Row → Bool)
    (conjuncts : List (Row → Bool)) (st : RuntimeState) (agg : Aggregator)
    (hc : st.is_cancelled = false) :
    (agg.none_group_by_exprs = true →
      pull_chunk bloom conjuncts st agg =
        pull_chunk_after_convert bloom conjuncts
          (convert_to_chunk_no_groupby agg).1
          (convert_to_chunk_no_groupby agg).2) ∧
    (agg.none_group_by_exprs = false →
      pull_chunk bloom conjuncts st agg =
        pull_chunk_after_convert bloom conjuncts
          (convert_hash_map_to_chunk agg st.chunk_size).1
          (convert_hash_map_to_chunk agg st.chunk_size).2) := by
  constructor <;> intro h <;> simp [pull_chunk, drain_step, hc, h]

/-- Witness for C6: one concrete NoGroupBy call and one concrete GroupBy
call, each matching its conversion function. -/
theorem pull_chunk_dispatch_witness :
    pull_chunk passAllBloom rejectConj sampleState sampleAggNoGB =
      pull_chunk_after_convert passAllBloom rejectConj
        (convert_to_chunk_no_groupby sampleAggNoGB).1
        (convert_to_chunk_no_groupby sampleAggNoGB).2 ∧
    pull_chunk passAllBloom rejectConj sampleState sampleAgg =
      pull_chunk_after_convert passAllBloom rejectConj
        (convert_hash_map_to_chunk sampleAgg sampleState.chunk_size).1
        (convert_hash_map_to_chunk sampleAgg sampleState.chunk_size).2 :=
  ⟨(pull_chunk_dispatch passAllBloom rejectConj sampleState sampleAggNoGB
      rfl).1 rfl,
   (pull_chunk_dispatch passAllBloom rejectConj sampleState sampleAgg
      rfl).2 rfl⟩

/-- C9: a successful `pull_chunk` may return a chunk with zero rows as an Ok
result: at this reachable state (one drained group removed entirely by a
conjunct) the call succeeds with an empty chunk while `is_finished` is still
false and `has_output` still true, so end-of-stream is signalled only by
`is_finished`, never by chunk emptiness. -/
theorem pull_chunk_empty_chunk_ok :
    (pull_chunk passAllBloom rejectConj sampleState sampleAgg).1 =
      Except.ok ([] : Chunk) ∧
    is_finished (pull_chunk passAllBloom rejectConj sampleState sampleAgg).2 =
      false ∧
    has_output (pull_chunk passAllBloom rejectConj sampleState sampleAgg).2 =
      true :=
  ⟨rfl, rfl, rfl⟩

end StarrocksPipeline
